import Mathlib

/- Shallow embedding of the ga4-frontend OAuth relay and Payment components.
   The authoritative revision of the OAuth component is src/unnamed/part_001
   (the current src/components/Oauth.tsx); src/src/components/Oauth.tsx is an
   earlier revision of the same file.  The Payment component is the second
   document staged in src/src/App.tsx.  Side-effecting handlers are embedded
   as pure functions over an explicit storage/outcome state. -/

/-- A parsed query string: ordered key-value pairs.  `getParam` mirrors
URLSearchParams.get, returning the first value bound to the key, or none. -/
def getParam (qs : List (String × String)) (k : String) : Option String :=
  (qs.find? (fun e => e.1 == k)).map Prod.snd

/-- The OAuthParams interface of Oauth.tsx: seven string-or-null fields. -/
structure OAuthParams where
  client_id : Option String
  redirect_uri : Option String
  response_type : Option String
  state : Option String
  code_challenge : Option String
  code_challenge_method : Option String
  scope : Option String
deriving DecidableEq

/-- JS truthiness of a string-or-null value: null and the empty string are falsy. -/
def truthy : Option String → Bool
  | none => false
  | some s => s ≠ ""

/-- JS `x || d` on a string-or-null `x` with string default `d`. -/
def jsOr (o : Option String) (d : String) : String :=
  match o with
  | some s => if s = "" then d else s
  | none => d

/-- JS `x || null` on a string-or-null `x`: the empty string collapses to null. -/
def jsOrNull (o : Option String) : Option String :=
  match o with
  | some s => if s = "" then none else some s
  | none => none

/-- The /authorize branch of the useEffect reads the seven OAuth parameters
verbatim from the query string (part_001 lines 78-86). -/
def parseOAuthParams (qs : List (String × String)) : OAuthParams :=
  { client_id := getParam qs "client_id"
  , redirect_uri := getParam qs "redirect_uri"
  , response_type := getParam qs "response_type"
  , state := getParam qs "state"
  , code_challenge := getParam qs "code_challenge"
  , code_challenge_method := getParam qs "code_challenge_method"
  , scope := getParam qs "scope" }

/-- Outcome of Request Capture: either the error state or captured params. -/
inductive CaptureResult where
  | error (msg : String)
  | captured (p : OAuthParams)
deriving DecidableEq

/-- Request Capture validation (part_001 lines 88-94):
`!params.client_id || !params.redirect_uri || params.response_type !== 'code'`
sets the fixed error message, otherwise the params become the captured state. -/
def captureAuthorize (qs : List (String × String)) : CaptureResult :=
  if truthy (parseOAuthParams qs).client_id = false ∨
      truthy (parseOAuthParams qs).redirect_uri = false ∨
      (parseOAuthParams qs).response_type ≠ some "code" then
    .error "Invalid OAuth request: Missing required parameters"
  else
    .captured (parseOAuthParams qs)

/-- The component state after the /authorize effect: the oauthParams state
(none on validation failure) and the error state. -/
def authorizePage (qs : List (String × String)) : Option OAuthParams × Option String :=
  match captureAuthorize qs with
  | .error msg => (none, some msg)
  | .captured p => (some p, none)

/-- The serialized form stored under the sessionStorage key `oauth_params`:
JSON.stringify of the seven-field object, modelled as the association list of
its keys in insertion order (null values are kept as null). -/
def stringifyParams (p : OAuthParams) : List (String × Option String) :=
  [ ("client_id", p.client_id)
  , ("redirect_uri", p.redirect_uri)
  , ("response_type", p.response_type)
  , ("state", p.state)
  , ("code_challenge", p.code_challenge)
  , ("code_challenge_method", p.code_challenge_method)
  , ("scope", p.scope) ]

/-- Field access on a parsed JSON object: absent keys and null values both read
back as none (the OAuthParams fields are string-or-null already). -/
def lookupField (l : List (String × Option String)) (k : String) : Option String :=
  match l.find? (fun e => e.1 == k) with
  | none => none
  | some e => e.2

/-- JSON.parse of the stored serialization, read back into OAuthParams
(part_001 line 165). -/
def parseStoredParams (l : List (String × Option String)) : OAuthParams :=
  { client_id := lookupField l "client_id"
  , redirect_uri := lookupField l "redirect_uri"
  , response_type := lookupField l "response_type"
  , state := lookupField l "state"
  , code_challenge := lookupField l "code_challenge"
  , code_challenge_method := lookupField l "code_challenge_method"
  , scope := lookupField l "scope" }

/-- The Durable Flow Context: the single sessionStorage slot `oauth_params`,
holding a serialized AuthorizationRequest or nothing. -/
abbrev FlowContext := Option (List (String × Option String))

/-- sessionStorage.setItem of the serialized request (overwrites any prior value). -/
def writeContext (p : OAuthParams) (_ctx : FlowContext) : FlowContext :=
  some (stringifyParams p)

/-- sessionStorage.getItem followed by JSON.parse, as an Option read. -/
def readContext (ctx : FlowContext) : Option OAuthParams :=
  ctx.map parseStoredParams

/-- sessionStorage.removeItem of the slot. -/
def clearContext (_ctx : FlowContext) : FlowContext :=
  none

/-- The options object passed to supabase.auth.signInWithOAuth
(part_001 lines 117-128). -/
structure SignInOptions where
  provider : String
  redirectTo : String
  scopes : String
  access_type : String
  prompt : String
deriving DecidableEq

/-- The scopes string declared in the sign-in call (part_001 line 121). -/
def analyticsScopes : String :=
  "openid email profile https://www.googleapis.com/auth/analytics.readonly https://www.googleapis.com/auth/analytics.manage.users.readonly"

/-- The individual scope tokens of the declared scopes string. -/
def analyticsScopeList : List String :=
  [ "openid", "email", "profile"
  , "https://www.googleapis.com/auth/analytics.readonly"
  , "https://www.googleapis.com/auth/analytics.manage.users.readonly" ]

/-- The concrete sign-in call issued by handleLogin for a given window origin. -/
def googleSignInCall (origin : String) : SignInOptions :=
  { provider := "google"
  , redirectTo := origin ++ "/auth/callback"
  , scopes := analyticsScopes
  , access_type := "offline"
  , prompt := "consent" }

/-- Observable effects of handleLogin, in execution order. -/
inductive LoginEvent where
  | storeWrite (serialized : List (String × Option String))
  | signIn (opts : SignInOptions)
deriving DecidableEq

/-- handleLogin (part_001 lines 103-140): with no captured params it stops with
an error and performs no effect; otherwise it first serializes the params into
the Durable Flow Context and then invokes the sign-in delegate.  `authError` is
the delegate's reported error, surfaced as `Login failed: {message}`. -/
def handleLogin (origin : String) (oauthParams : Option OAuthParams)
    (authError : Option String) : List LoginEvent × Option String :=
  match oauthParams with
  | none => ([], some "No OAuth parameters found")
  | some p =>
      ([.storeWrite (stringifyParams p), .signIn (googleSignInCall origin)],
       authError.map (fun m => "Login failed: " ++ m))

/-- The fields of the Supabase session that handleSupabaseCallback reads for the
google_credentials extraction.  `granted_scope` is Modelled from the spec: the
IdentitySession's "granted scope" (spec section 3), the scope value the provider
actually granted for this session; the code never reads such a field. -/
structure Session where
  provider_token : Option String
  provider_refresh_token : Option String
  expires_in : Nat
  token_type : Option String
  granted_scope : String
deriving DecidableEq

/-- The google_credentials member of EnhancedSessionData (part_001 lines 174-180). -/
structure GoogleCredentials where
  access_token : String
  refresh_token : Option String
  expires_in : Nat
  token_type : String
  scope : String
deriving DecidableEq

/-- Extraction of google_credentials from the session (part_001 lines 174-180):
`session.provider_token || ''`, `session.provider_refresh_token || null`,
`session.expires_in || 3600`, `session.token_type || 'Bearer'`, and the
string literal scope. -/
def googleCredentialsOf (s : Session) : GoogleCredentials :=
  { access_token := jsOr s.provider_token ""
  , refresh_token := jsOrNull s.provider_refresh_token
  , expires_in := if s.expires_in = 0 then 3600 else s.expires_in
  , token_type := jsOr s.token_type "Bearer"
  , scope := "https://www.googleapis.com/auth/analytics.readonly" }

/-- The typed response body of the backend callback POST. -/
structure CallbackResponse where
  success : Bool
  message : Option String
  redirectUrl : Option String
deriving DecidableEq

/-- Outcome of the axios.post to the backend callback endpoint.  axios resolves
only for an HTTP success status; a received response with an error status
rejects with `err.response` populated (status code and body message), and a
network error or timeout rejects with no response, only `err.message`. -/
inductive PostOutcome where
  | ok (resp : CallbackResponse)
  | httpError (status : Nat) (message : Option String)
  | noResponse (errMessage : String)
deriving DecidableEq

/-- The callback URL built by handleSupabaseCallback: fixed base, the /callback
path, and the appended query parameters. -/
structure CallbackUrl where
  base : String
  path : String
  query : List (String × String)
deriving DecidableEq

/-- Filter applied per Object.entries entry (part_001 lines 213-217):
`if (value)` keeps exactly the truthy (non-null, non-empty) values. -/
def truthyEntry (e : String × Option String) : Option (String × String) :=
  match e.2 with
  | some v => if v = "" then none else some (e.1, v)
  | none => none

/-- The query parameters set on the callback URL: the truthy entries of the
stored params, in insertion order (keys are distinct, so searchParams.set
appends). -/
def callbackQueryParams (p : OAuthParams) : List (String × String) :=
  (stringifyParams p).filterMap truthyEntry

/-- new URL('/callback', backendUrl) with the hardcoded backend base
(part_001 lines 208-217), plus the OAuth params as query parameters. -/
def buildCallbackUrl (p : OAuthParams) : CallbackUrl :=
  { base := "https://remote-ga4-mcp-229250458092.us-central1.run.app"
  , path := "/callback"
  , query := callbackQueryParams p }

/-- Hex digit (uppercase) for percent-encoding. -/
def uriHexDigit (n : Nat) : Char :=
  if n < 10 then Char.ofNat (48 + n) else Char.ofNat (55 + n)

/-- One percent-encoded byte, e.g. 47 ↦ "%2F". -/
def percentByte (b : Nat) : String :=
  String.mk ['%', uriHexDigit (b / 16), uriHexDigit (b % 16)]

/-- UTF-8 byte sequence of a code point. -/
def utf8Bytes (n : Nat) : List Nat :=
  if n < 128 then [n]
  else if n < 2048 then [192 + n / 64, 128 + n % 64]
  else if n < 65536 then [224 + n / 4096, 128 + (n / 64) % 64, 128 + n % 64]
  else [240 + n / 262144, 128 + (n / 4096) % 64, 128 + (n / 64) % 64, 128 + n % 64]

/-- Characters left unescaped by JS encodeURIComponent. -/
def isUriUnreserved (c : Char) : Bool :=
  c.isAlphanum || c == '-' || c == '_' || c == '.' || c == '!' || c == '~' ||
    c == '*' || c == Char.ofNat 39 || c == '(' || c == ')'

/-- JS encodeURIComponent: unreserved characters kept, all others
percent-encoded as UTF-8 bytes. -/
def encodeURIComponent (s : String) : String :=
  s.data.foldl
    (fun acc c =>
      acc ++ (if isUriUnreserved c then String.mk [c]
              else String.join ((utf8Bytes c.toNat).map percentByte)))
    ""

/-- The terminal result of one handleSupabaseCallback run: an error state or a
client-side navigation. -/
inductive CallbackResult where
  | errorMsg (msg : String)
  | navigate (path : String)
deriving DecidableEq

/-- One handleSupabaseCallback run: whether (and where) a backend POST was
issued, the Durable Flow Context afterwards, and the terminal result. -/
structure CallbackRun where
  posted : Option CallbackUrl
  ctxAfter : FlowContext
  result : CallbackResult
deriving DecidableEq

/-- handleSupabaseCallback (part_001 lines 142-252).  Gates in source order:
no established session (getSession error or null session) stops with the
authentication error; an empty Durable Flow Context stops with the expiry
error; otherwise the stored params are parsed, the callback URL is built and
POSTed.  On a resolved POST the context slot is removed and the component
navigates to the payment page with the URL-encoded redirect_uri; on a rejected
POST the axios error is surfaced and the context is left in place. -/
def handleSupabaseCallback (sessionResult : Option Session) (ctx : FlowContext)
    (post : PostOutcome) : CallbackRun :=
  match sessionResult with
  | none => { posted := none, ctxAfter := ctx,
              result := .errorMsg "Failed to authenticate with Google" }
  | some _sess =>
      match ctx with
      | none => { posted := none, ctxAfter := none,
                  result := .errorMsg "OAuth session expired. Please try again." }
      | some stored =>
          let oauthParams := parseStoredParams stored
          let url := buildCallbackUrl oauthParams
          match post with
          | .ok _resp =>
              { posted := some url
              , ctxAfter := none
              , result := .navigate
                  ("/payment?redirect_uri=" ++
                    encodeURIComponent (jsOr oauthParams.redirect_uri "")) }
          | .httpError status message =>
              { posted := some url
              , ctxAfter := some stored
              , result := .errorMsg
                  ("Authentication failed (" ++ toString status ++ "): " ++
                    jsOr message ("Request failed with status code " ++ toString status)) }
          | .noResponse errMessage =>
              { posted := some url
              , ctxAfter := some stored
              , result := .errorMsg
                  ("Authentication failed (undefined): " ++ errMessage) }

/-- Observable effects of the error view's Go Back button
(part_001 lines 270-275), in execution order. -/
inductive RecoveryEvent where
  | clearError
  | removeContext
  | navigateTo (url : String)
deriving DecidableEq

/-- The Go Back onClick handler: setError(null), remove the oauth_params slot,
set window.location.href to the application root. -/
def goBackClick : List RecoveryEvent :=
  [.clearError, .removeContext, .navigateTo "/"]

/-- The component-visible state the recovery events act on. -/
structure UIState where
  error : Option String
  ctx : FlowContext
  location : String
deriving DecidableEq

/-- Interpretation of one recovery event on the UI state. -/
def applyRecoveryEvent (s : UIState) : RecoveryEvent → UIState
  | .clearError => { s with error := none }
  | .removeContext => { s with ctx := none }
  | .navigateTo u => { s with location := u }

/-- Effect of the full Go Back click on the UI state. -/
def goBack (s : UIState) : UIState :=
  goBackClick.foldl applyRecoveryEvent s

/-- The Payment component's forwarded redirect target (src/src/App.tsx, second
document, line 50): `searchParams.get('redirect_uri') || ""`. -/
def paymentRedirectUri (qs : List (String × String)) : String :=
  jsOr (getParam qs "redirect_uri") ""

/-- The body and target of the payment verification POST (src/src/App.tsx,
second document, lines 72-78): the payment id and the signature with its
falsy-fallback sentinel. -/
structure VerifyRequest where
  url : String
  razorpay_payment_id : String
  razorpay_signature : String
deriving DecidableEq

/-- The verification request built from the checkout success callback's
response fields: `response.razorpay_signature || 'no-signature'`. -/
def verifyRequestOf (payment_id : String) (signature : Option String) : VerifyRequest :=
  { url := "/payment/verify"
  , razorpay_payment_id := payment_id
  , razorpay_signature := jsOr signature "no-signature" }

/-- Outcome of the verification fetch chain (src/src/App.tsx, second document,
lines 72-88): either a parsed JSON body whose status field may be absent (or
not a string, which the strict comparison also fails; collapsed to none), or a
rejection of the fetch/json promise carrying the stringified error. -/
inductive VerifyOutcome where
  | responded (status : Option String)
  | requestFailed (err : String)
deriving DecidableEq

/-- The Payment component's reaction to verification: set window.location.href
to the forwarded URI, or alert with a message and remain on the payment page. -/
inductive PaymentAction where
  | redirect (uri : String)
  | alertStay (msg : String)
deriving DecidableEq

/-- handlePayment's verification continuation (src/src/App.tsx, second
document, lines 80-88): `data.status === 'success'` sets the location to the
forwarded redirectUri; any other body alerts "Payment verification failed";
a rejected request alerts "Payment verification failed: " plus the error. -/
def handlePayment (redirectUri : String) (v : VerifyOutcome) : PaymentAction :=
  match v with
  | .responded st =>
      if st = some "success" then .redirect redirectUri
      else .alertStay "Payment verification failed"
  | .requestFailed err => .alertStay ("Payment verification failed: " ++ err)

/- Shared concrete inputs used by witnesses and counterexamples. -/

/-- A valid sample AuthorizationRequest. -/
def sampleParams : OAuthParams :=
  { client_id := some "abc"
  , redirect_uri := some "https://x.test/done"
  , response_type := some "code"
  , state := none
  , code_challenge := none
  , code_challenge_method := none
  , scope := none }

/-- A sample established identity session. -/
def sampleSession : Session :=
  { provider_token := some "ya29.sampletoken"
  , provider_refresh_token := some "1//samplerefresh"
  , expires_in := 3599
  , token_type := some "bearer"
  , granted_scope := "openid email profile https://www.googleapis.com/auth/analytics.readonly https://www.googleapis.com/auth/analytics.manage.users.readonly" }

/-- A sample backend callback response body. -/
def sampleResponse : CallbackResponse :=
  { success := true, message := none, redirectUrl := none }

/- Helper lemmas (shared). -/

/-- Serialization round-trip: parsing the stored form restores every field. -/
theorem parse_stringify (p : OAuthParams) : parseStoredParams (stringifyParams p) = p := by
  cases p
  rfl

/-- JS `x || ''` coincides with Option.getD on the empty-string default. -/
theorem jsOr_empty (o : Option String) : jsOr o "" = o.getD "" := by
  cases o with
  | none => rfl
  | some s =>
      by_cases h : s = ""
      · simp [jsOr, h]
      · simp [jsOr, h]

/-- C1 (amended): in the Callback Reconciler, for every POST to the backend
callback endpoint that resolves successfully (an HTTP-success response received
within the timeout), regardless of the content of the response body, the
Durable Flow Context entry is cleared and control navigates to the Payment
Gate with the original AuthorizationRequest redirect_uri carried as a
URL-encoded redirect_uri query parameter. -/
theorem c1_resolved_post_clears_and_navigates (sess : Session)
    (stored : List (String × Option String)) (resp : CallbackResponse) :
    handleSupabaseCallback (some sess) (some stored) (.ok resp) =
      { posted := some (buildCallbackUrl (parseStoredParams stored))
      , ctxAfter := none
      , result := .navigate ("/payment?redirect_uri=" ++
          encodeURIComponent ((parseStoredParams stored).redirect_uri.getD "")) } := by
  simp [handleSupabaseCallback, jsOr_empty]

/-- C1 (counterexample): a response received within the timeout but carrying an
HTTP error status (here 500) makes the POST reject, and the run neither clears
the Durable Flow Context nor navigates: it surfaces the backend status and
message as an error state. -/
theorem c1_counterexample :
    (handleSupabaseCallback (some sampleSession) (some (stringifyParams sampleParams))
        (.httpError 500 (some "denied"))).ctxAfter = some (stringifyParams sampleParams) ∧
    (handleSupabaseCallback (some sampleSession) (some (stringifyParams sampleParams))
        (.httpError 500 (some "denied"))).result =
      .errorMsg "Authentication failed (500): denied" :=
  ⟨rfl, rfl⟩

/-- C4 (amended): the Callback Reconciler checks its gates in order: with no
identity session it stops with the error "Failed to authenticate with Google"
(no trailing period in the code); with a session but an empty Durable Flow
Context it stops with "OAuth session expired. Please try again."; in both
failure cases no POST to the backend callback endpoint is issued. -/
theorem c4_gate_order :
    (∀ (ctx : FlowContext) (post : PostOutcome),
        handleSupabaseCallback none ctx post =
          { posted := none, ctxAfter := ctx,
            result := .errorMsg "Failed to authenticate with Google" }) ∧
    (∀ (sess : Session) (post : PostOutcome),
        handleSupabaseCallback (some sess) none post =
          { posted := none, ctxAfter := none,
            result := .errorMsg "OAuth session expired. Please try again." }) :=
  ⟨fun _ _ => rfl, fun _ _ => rfl⟩

/-- C4 (counterexample): at a concrete no-session input the reconciler's error
message is "Failed to authenticate with Google", which differs from the
claimed message "Failed to authenticate with Google." (trailing period). -/
theorem c4_counterexample :
    (handleSupabaseCallback none (some (stringifyParams sampleParams))
        (.ok sampleResponse)).result =
      .errorMsg "Failed to authenticate with Google" ∧
    ("Failed to authenticate with Google" : String) ≠
      "Failed to authenticate with Google." :=
  ⟨rfl, by decide⟩

/-- C5: writing an AuthorizationRequest into the Durable Flow Context and
reading it back before any clear yields a field-for-field equal request;
reading after a clear yields absence; and after one successful Callback
Reconciler run, a duplicate callback navigation finds the context absent and
routes to the session-expired error. -/
theorem c5_roundtrip_and_single_use :
    (∀ (p : OAuthParams) (ctx : FlowContext),
        readContext (writeContext p ctx) = some p) ∧
    (∀ ctx : FlowContext, readContext (clearContext ctx) = none) ∧
    (∀ (s1 s2 : Session) (p : OAuthParams) (resp : CallbackResponse)
        (post2 : PostOutcome),
        (handleSupabaseCallback (some s1) (writeContext p none) (.ok resp)).ctxAfter
            = none ∧
        (handleSupabaseCallback (some s2)
            (handleSupabaseCallback (some s1) (writeContext p none)
              (.ok resp)).ctxAfter post2).result =
          .errorMsg "OAuth session expired. Please try again.") := by
  refine ⟨fun p ctx => ?_, fun ctx => rfl, fun s1 s2 p resp post2 => ⟨rfl, rfl⟩⟩
  simp [readContext, writeContext, parse_stringify]

/-- C9: the Flow Error Surface's single recovery action clears the error,
removes any residual AuthorizationRequest from the Durable Flow Context and
navigates to the application root, whatever the prior in-flight state. -/
theorem c9_go_back_recovery (s : UIState) :
    goBack s = { error := none, ctx := none, location := "/" } := by
  cases s
  rfl

/-- C8 (amended): the Google credential fields of the EnrichedCallbackPayload
are extracted from the established IdentitySession — access token, optional
refresh token, expiry seconds and token type, each with a falsy-fallback
default — while the scope field is the hardcoded analytics read-only scope
constant, not the scope value the provider actually granted. -/
theorem c8_credentials_extraction (s : Session) :
    (googleCredentialsOf s).access_token = s.provider_token.getD "" ∧
    (googleCredentialsOf s).refresh_token = jsOrNull s.provider_refresh_token ∧
    (googleCredentialsOf s).expires_in =
      (if s.expires_in = 0 then 3600 else s.expires_in) ∧
    (googleCredentialsOf s).token_type = jsOr s.token_type "Bearer" ∧
    (googleCredentialsOf s).scope =
      "https://www.googleapis.com/auth/analytics.readonly" :=
  ⟨jsOr_empty s.provider_token, rfl, rfl, rfl, rfl⟩

/-- C8 (counterexample): for a concrete session whose provider-granted scope is
the full scope list requested at sign-in, the extracted credentials' scope
field is the hardcoded analytics read-only constant, not the session's
granted scope. -/
theorem c8_counterexample :
    (googleCredentialsOf sampleSession).scope ≠ sampleSession.granted_scope := by
  decide

/-- Characterization of the per-entry truthiness filter used when building the
callback URL query. -/
theorem truthyEntry_eq_some (name : String) (ov : Option String) (k v : String) :
    truthyEntry (name, ov) = some (k, v) ↔ k = name ∧ ov = some v ∧ v ≠ "" := by
  constructor
  · intro h
    cases ov with
    | none => simp [truthyEntry] at h
    | some s =>
        by_cases hs : s = ""
        · simp [truthyEntry, hs] at h
        · simp [truthyEntry, hs] at h
          obtain ⟨h1, h2⟩ := h
          exact ⟨h1.symm, by rw [h2], fun hv => hs (h2.trans hv)⟩
  · rintro ⟨rfl, rfl, hv⟩
    simp [truthyEntry, hv]

/-- C6: the backend callback URL consists of the fixed backend base plus the
/callback path, and its query parameters are exactly the non-empty fields of
the stored AuthorizationRequest under their own names — every non-empty field
is present and no other query parameter is added. -/
theorem c6_callback_url_exact_params (p : OAuthParams) (k v : String) :
    ((k, v) ∈ (buildCallbackUrl p).query ↔
      (k = "client_id" ∧ p.client_id = some v ∧ v ≠ "") ∨
      (k = "redirect_uri" ∧ p.redirect_uri = some v ∧ v ≠ "") ∨
      (k = "response_type" ∧ p.response_type = some v ∧ v ≠ "") ∨
      (k = "state" ∧ p.state = some v ∧ v ≠ "") ∨
      (k = "code_challenge" ∧ p.code_challenge = some v ∧ v ≠ "") ∨
      (k = "code_challenge_method" ∧ p.code_challenge_method = some v ∧ v ≠ "") ∨
      (k = "scope" ∧ p.scope = some v ∧ v ≠ "")) ∧
    (buildCallbackUrl p).base =
      "https://remote-ga4-mcp-229250458092.us-central1.run.app" ∧
    (buildCallbackUrl p).path = "/callback" := by
  refine ⟨?_, rfl, rfl⟩
  simp [buildCallbackUrl, callbackQueryParams, stringifyParams,
    List.mem_filterMap, truthyEntry_eq_some]

/-- C3: an authorize-path query string with a missing or empty client_id, a
missing or empty redirect_uri, or a response_type different from the literal
code value leaves Request Capture in the error state with exactly the message
"Invalid OAuth request: Missing required parameters", no params are captured,
and the subsequent login trigger writes nothing to the Durable Flow Context. -/
theorem c3_invalid_request_error_no_write (qs : List (String × String))
    (origin : String)
    (h : getParam qs "client_id" = none ∨ getParam qs "client_id" = some "" ∨
        getParam qs "redirect_uri" = none ∨ getParam qs "redirect_uri" = some "" ∨
        getParam qs "response_type" ≠ some "code") :
    authorizePage qs =
      (none, some "Invalid OAuth request: Missing required parameters") ∧
    (handleLogin origin (authorizePage qs).1 none).1 = [] := by
  have hc : truthy (parseOAuthParams qs).client_id = false ∨
      truthy (parseOAuthParams qs).redirect_uri = false ∨
      (parseOAuthParams qs).response_type ≠ some "code" := by
    simp only [parseOAuthParams]
    rcases h with h | h | h | h | h
    · exact Or.inl (by rw [h]; rfl)
    · exact Or.inl (by rw [h]; rfl)
    · exact Or.inr (Or.inl (by rw [h]; rfl))
    · exact Or.inr (Or.inl (by rw [h]; rfl))
    · exact Or.inr (Or.inr h)
  have hcap : captureAuthorize qs =
      .error "Invalid OAuth request: Missing required parameters" := by
    simp only [captureAuthorize]
    rw [if_pos hc]
  have h1 : authorizePage qs =
      (none, some "Invalid OAuth request: Missing required parameters") := by
    simp [authorizePage, hcap]
  refine ⟨h1, ?_⟩
  rw [h1]
  rfl

/-- Concrete invalid authorize query string: no redirect_uri. -/
def c3qs : List (String × String) :=
  [("client_id", "abc"), ("response_type", "code")]

/-- C3 witness: the concrete query string with client_id and response_type but
no redirect_uri satisfies the invalidity hypothesis, reaches the fixed error
with no captured params, and the login trigger performs no effect. -/
theorem c3_witness :
    (getParam c3qs "client_id" = none ∨ getParam c3qs "client_id" = some "" ∨
      getParam c3qs "redirect_uri" = none ∨ getParam c3qs "redirect_uri" = some "" ∨
      getParam c3qs "response_type" ≠ some "code") ∧
    (authorizePage c3qs =
        (none, some "Invalid OAuth request: Missing required parameters") ∧
      (handleLogin "https://app.example" (authorizePage c3qs).1 none).1 = []) :=
  ⟨by decide, c3_invalid_request_error_no_write c3qs "https://app.example" (by decide)⟩

/-- C7: on the explicit login trigger with a previously captured valid
AuthorizationRequest, handleLogin first serializes the full request into the
Durable Flow Context (the stored form parses back to the same request) and then
invokes the external sign-in with provider Google, return path the
application's callback entry point, scopes including the analytics read-only
and analytics user-management-readonly scopes, offline access type, and
forced consent. -/
theorem c7_login_serializes_then_signs_in (origin : String) (p : OAuthParams)
    (_hvalid : truthy p.client_id = true ∧ truthy p.redirect_uri = true ∧
      p.response_type = some "code") :
    handleLogin origin (some p) none =
      ([.storeWrite (stringifyParams p), .signIn (googleSignInCall origin)], none) ∧
    parseStoredParams (stringifyParams p) = p ∧
    (googleSignInCall origin).provider = "google" ∧
    (googleSignInCall origin).redirectTo = origin ++ "/auth/callback" ∧
    (googleSignInCall origin).scopes = " ".intercalate analyticsScopeList ∧
    "https://www.googleapis.com/auth/analytics.readonly" ∈ analyticsScopeList ∧
    "https://www.googleapis.com/auth/analytics.manage.users.readonly" ∈
      analyticsScopeList ∧
    (googleSignInCall origin).access_type = "offline" ∧
    (googleSignInCall origin).prompt = "consent" :=
  ⟨rfl, parse_stringify p, rfl, rfl, rfl, by decide, by decide, rfl, rfl⟩

/-- C7 witness: the sample valid request satisfies the validity hypothesis and
the login trigger serializes it and issues the sign-in call. -/
theorem c7_witness :
    (truthy sampleParams.client_id = true ∧ truthy sampleParams.redirect_uri = true ∧
      sampleParams.response_type = some "code") ∧
    handleLogin "https://app.example" (some sampleParams) none =
      ([.storeWrite (stringifyParams sampleParams),
        .signIn (googleSignInCall "https://app.example")], none) :=
  ⟨by decide,
    (c7_login_serializes_then_signs_in "https://app.example" sampleParams (by decide)).1⟩

/-- C2: the Payment Gate sets the browser location to the forwarded
redirect_uri only when the verification response's status field equals the
literal success value; for every other response value, a malformed or absent
status field, or a failed verification request, an alert is shown and the
user stays on the payment page. -/
theorem c2_payment_redirect_only_on_success :
    (∀ (uri : String) (v : VerifyOutcome) (u : String),
        handlePayment uri v = .redirect u →
          v = .responded (some "success") ∧ u = uri) ∧
    (∀ (uri : String) (st : Option String),
        st ≠ some "success" →
          handlePayment uri (.responded st) = .alertStay "Payment verification failed") ∧
    (∀ (uri err : String),
        handlePayment uri (.requestFailed err) =
          .alertStay ("Payment verification failed: " ++ err)) := by
  refine ⟨?_, ?_, fun uri err => rfl⟩
  · intro uri v u h
    cases v with
    | responded st =>
        by_cases hs : st = some "success"
        · refine ⟨by rw [hs], ?_⟩
          simp [handlePayment, hs] at h
          exact h.symm
        · simp [handlePayment, hs] at h
    | requestFailed err => simp [handlePayment] at h
  · intro uri st hs
    simp [handlePayment, hs]

/-- C2 witness: a concrete non-success verification response leaves the user on
the payment page with the alert, and a concrete success response is the (only)
redirecting input. -/
theorem c2_witness :
    ((some "failed" : Option String) ≠ some "success" ∧
      handlePayment "https://x.test/done" (.responded (some "failed")) =
        .alertStay "Payment verification failed") ∧
    (VerifyOutcome.responded (some "success") = VerifyOutcome.responded (some "success") ∧
      "https://x.test/done" = "https://x.test/done") :=
  ⟨⟨by decide,
      c2_payment_redirect_only_on_success.2.1 "https://x.test/done"
        (some "failed") (by decide)⟩,
    c2_payment_redirect_only_on_success.1 "https://x.test/done"
      (.responded (some "success")) "https://x.test/done" (by decide)⟩

/-- C10: when the Payment Gate is reached without a redirect_uri query
parameter, the forwarded redirect target defaults to the empty string, and a
verified-success payment then sets the browser location to the empty string
rather than failing or reporting an error. -/
theorem c10_absent_redirect_defaults_empty (qs : List (String × String))
    (h : getParam qs "redirect_uri" = none) :
    paymentRedirectUri qs = "" ∧
    handlePayment (paymentRedirectUri qs) (.responded (some "success")) =
      .redirect "" := by
  have he : paymentRedirectUri qs = "" := by
    simp [paymentRedirectUri, h, jsOr]
  refine ⟨he, ?_⟩
  rw [he]
  rfl

/-- C10 witness: the empty query string has no redirect_uri parameter, the
target defaults to the empty string, and a success verification redirects to
the empty string. -/
theorem c10_witness :
    getParam ([] : List (String × String)) "redirect_uri" = none ∧
    (paymentRedirectUri ([] : List (String × String)) = "" ∧
      handlePayment (paymentRedirectUri ([] : List (String × String)))
        (.responded (some "success")) = .redirect "") :=
  ⟨rfl, c10_absent_redirect_defaults_empty [] rfl⟩
